import Mathlib

/-!
# DRKey mock-up for the SCIOND connector

Shallow embedding of `mockupsciond/sciond_drkey.go`: the two functions
`Connector.DRKeyGetLvl2Key` and `getLvl1`, together with the values they
exchange with the packages `drkey`, `drkey/protocol`, `common` and `fmt`.

Conventions.

* A Go `error` interface value is an `Option GoError`; `none` is `nil`.
* A Go function returning `(T, error)` returns a pair `T × Option GoError`:
  both components are kept, because `DRKeyGetLvl2Key` hands the pair of the
  level-2 derivation back as it is.
* `uint32` values are natural numbers below `2 ^ 32`; the one addition of the
  source is reduced modulo `2 ^ 32`.
* The packages `drkey` and `drkey/protocol` are not part of the embedded file.
  Their key types, their zero values, the two derivation functions and the
  registry are parameters, bundled in `Packages`.
* Every call that leaves the file (`DeriveSV`, `DeriveLvl1`, the registry
  lookup, `DeriveLvl2`) is recorded, in order, in the `calls` component of
  the result, so that "is not invoked" is a statement about that list.
* Statements that compare two runs use a second embedding, `getLvl1.run` and
  `DRKeyGetLvl2Key.run`, in which the process state is passed from call to
  call and the derivation functions may depend on it.
-/

namespace DRKeyMockup

/-! ## Errors -/

/-- A non-nil Go `error` value. `basic msg err` is `common.BasicError` with
message `msg` and wrapped error `err`; `errorf text` is the value built by
`fmt.Errorf` whose message is `text`; `foreign descr` is any other error value,
as the derivation functions of the `drkey` packages may return. -/
inductive GoError where
  | basic (msg : String) (err : GoError)
  | errorf (text : String)
  | foreign (descr : String)
  deriving DecidableEq, Repr

/-- The call `common.NewBasicError(msg, e)` without log context. Both call sites of
the source sit behind `if err != nil`, so `e` is a non-nil error. -/
def NewBasicError (msg : String) (e : GoError) : GoError :=
  GoError.basic msg e

/-- The call `fmt.Errorf("No derivation found for protocol \"%s\"", protocol)`: the
verb `%s` is replaced by the protocol name. -/
def noDerivationFound (protocol : String) : GoError :=
  GoError.errorf ("No derivation found for protocol \"" ++ protocol ++ "\"")

/-! ## Data exchanged with the `drkey` packages -/

/-- The type `addr.IA`: an ISD number and an AS number. -/
structure IA where
  I : Nat
  A : Nat
  deriving DecidableEq, Repr

/-- Modelled from the spec: the type `drkey.Epoch` is declared outside the
embedded file. Spec §3: a half-open interval `[notBefore, notAfter)` of
validity, represented as two unsigned timestamps in seconds. -/
structure Epoch where
  NotBefore : Nat
  NotAfter : Nat
  deriving DecidableEq, Repr

/-- Modelled from the spec: `drkey.NewEpoch(begin, end)` is declared outside
the embedded file. It builds the epoch whose bounds are its two arguments. -/
def NewEpoch (tBegin tEnd : Nat) : Epoch :=
  { NotBefore := tBegin, NotAfter := tEnd }

/-- The type `drkey.SVMeta`, with the one field the source sets. -/
structure SVMeta where
  Epoch : Epoch
  deriving DecidableEq, Repr

/-- The type `drkey.Lvl1Meta`, with the three fields the source sets. -/
structure Lvl1Meta where
  Epoch : Epoch
  SrcIA : IA
  DstIA : IA
  deriving DecidableEq, Repr

/-- The type `drkey.Lvl2Meta`: the three fields the source reads, and `Rest` for the
fields it never touches (the per-protocol ones). -/
structure Lvl2Meta (ρ : Type) where
  SrcIA : IA
  DstIA : IA
  Protocol : String
  Rest : ρ
  deriving DecidableEq, Repr

/-- The method `DeriveLvl2` of a registered derivation. -/
abbrev Derivation (L1 L2 ρ : Type) : Type :=
  Lvl2Meta ρ → L1 → L2 × Option GoError

/-- What the source takes from the packages `drkey` and `drkey/protocol`:
the zero values `drkey.Lvl1Key{}` and `drkey.Lvl2Key{}`, `drkey.DeriveSV`,
`protocol.DeriveLvl1`, and the map `protocol.KnownDerivations` (a lookup
yields `none` when the key is absent, that is `found == false`). -/
structure Packages (SV L1 L2 ρ : Type) where
  zeroLvl1Key : L1
  zeroLvl2Key : L2
  DeriveSV : SVMeta → List Nat → SV × Option GoError
  DeriveLvl1 : Lvl1Meta → SV → L1 × Option GoError
  KnownDerivations : String → Option (Derivation L1 L2 ρ)

/-- The calls that leave the file. -/
inductive Call where
  | DeriveSV
  | DeriveLvl1
  | Lookup
  | DeriveLvl2
  deriving DecidableEq, Repr

/-- What a function of the file returns, `(key, err)`, and the calls it made
on the way, oldest first. -/
structure Ret (K : Type) where
  key : K
  err : Option GoError
  calls : List Call
  deriving DecidableEq, Repr

/-! ## `time` constants and `uint32` -/

/-- The constant `time.Second`, in nanoseconds. -/
def time_Second : Nat := 1000000000

/-- The constant `time.Hour`, in nanoseconds. -/
def time_Hour : Nat := 60 * (60 * time_Second)

/-- Conversion of a non-negative integer to `uint32`. -/
def uint32 (n : Nat) : Nat := n % 2 ^ 32

/-- Addition of two `uint32` values. -/
def addUint32 (a b : Nat) : Nat := (a + b) % 2 ^ 32

/-! ## The two functions of the file -/

/-- The local `duration` of `getLvl1`: `int64(time.Hour / time.Second)`. -/
def getLvl1.duration : Nat := time_Hour / time_Second

/-- The local `epoch` of `getLvl1`:
`drkey.NewEpoch(valTime, valTime+uint32(duration))`. -/
def getLvl1.epoch (valTime : Nat) : Epoch :=
  NewEpoch valTime (addUint32 valTime (uint32 getLvl1.duration))

/-- The local `asSecret` of `getLvl1`. -/
def getLvl1.asSecret : List Nat :=
  [0, 1, 2, 3, 4, 5, 6, 7, 0, 1, 2, 3, 4, 5, 6, 7]

variable {SV L1 L2 ρ Conn Ctx : Type}

/-- The function `getLvl1(srcIA, dstIA, valTime)`. -/
def getLvl1 (P : Packages SV L1 L2 ρ) (srcIA dstIA : IA) (valTime : Nat) : Ret L1 :=
  let epoch := getLvl1.epoch valTime
  let svMeta : SVMeta := { Epoch := epoch }
  let asSecret := getLvl1.asSecret
  match P.DeriveSV svMeta asSecret with
  | (_, some err) =>
    { key := P.zeroLvl1Key
      err := some (NewBasicError "Error getting secret value" err)
      calls := [Call.DeriveSV] }
  | (sv, none) =>
    match P.DeriveLvl1 { Epoch := epoch, SrcIA := srcIA, DstIA := dstIA } sv with
    | (_, some err) =>
      { key := P.zeroLvl1Key
        err := some (NewBasicError "Error deriving Lvl1 key" err)
        calls := [Call.DeriveSV, Call.DeriveLvl1] }
    | (lvl1, none) =>
      { key := lvl1
        err := none
        calls := [Call.DeriveSV, Call.DeriveLvl1] }

/-- The method `Connector.DRKeyGetLvl2Key(ctx, meta, valTime)`. The receiver
`c` (the wrapped `sciond.Connector`) and the context are arguments, as in the
source; the body reads neither. -/
def DRKeyGetLvl2Key (P : Packages SV L1 L2 ρ) (_c : Conn) (_ctx : Ctx)
    (meta : Lvl2Meta ρ) (valTime : Nat) : Ret L2 :=
  let r := getLvl1 P meta.SrcIA meta.DstIA valTime
  match r.err with
  | some err =>
    { key := P.zeroLvl2Key
      err := some (NewBasicError "Error getting lvl1 key" err)
      calls := r.calls }
  | none =>
    match P.KnownDerivations meta.Protocol with
    | none =>
      { key := P.zeroLvl2Key
        err := some (noDerivationFound meta.Protocol)
        calls := r.calls ++ [Call.Lookup] }
    | some derProt =>
      let out := derProt meta r.key
      { key := out.1
        err := out.2
        calls := r.calls ++ [Call.Lookup, Call.DeriveLvl2] }

/-! ## The derivation chain of one request

The two derivations of `getLvl1`, named so that the statements below can speak
of their success and failure. -/

/-- The pair that `drkey.DeriveSV` returns inside `getLvl1` for `valTime`. -/
def secretValueDerivation (P : Packages SV L1 L2 ρ) (valTime : Nat) : SV × Option GoError :=
  P.DeriveSV { Epoch := getLvl1.epoch valTime } getLvl1.asSecret

/-- The pair that `protocol.DeriveLvl1` returns inside `getLvl1` when it is
given the secret value of `secretValueDerivation`. -/
def level1Derivation (P : Packages SV L1 L2 ρ) (srcIA dstIA : IA) (valTime : Nat) :
    L1 × Option GoError :=
  P.DeriveLvl1 { Epoch := getLvl1.epoch valTime, SrcIA := srcIA, DstIA := dstIA }
    (secretValueDerivation P valTime).1

/-- The error `e` is a `common.BasicError` whose wrapped error is `cause`,
whatever its message. -/
def GoError.wraps : GoError → GoError → Bool
  | GoError.basic _ err, cause => decide (err = cause)
  | _, _ => false

/-! ## A concrete instance of the `drkey` packages

Used at concrete inputs only. -/

/-- Modelled from the spec: `drkey.DeriveSV` is declared outside the embedded
file. Spec §4.1: it fails with a `DerivationError` when the master secret has
an invalid length, and is otherwise a deterministic function of the epoch
bounds and the secret. `secretLen` is the length this instance accepts. -/
def demoDeriveSV (secretLen : Nat) (m : SVMeta) (asSecret : List Nat) :
    List Nat × Option GoError :=
  if asSecret.length = secretLen then
    (m.Epoch.NotBefore :: m.Epoch.NotAfter :: asSecret, none)
  else
    ([], some (GoError.foreign "DerivationError: master secret length"))

/-- Modelled from the spec: `protocol.DeriveLvl1` is declared outside the
embedded file. Spec §4.2: it fails with a `DerivationError` on a malformed
domain identifier (here: ISD number 0), and is otherwise a deterministic
function of the ordered pair of domains and the secret value. -/
def demoDeriveLvl1 (m : Lvl1Meta) (sv : List Nat) : List Nat × Option GoError :=
  if m.SrcIA.I = 0 ∨ m.DstIA.I = 0 then
    ([], some (GoError.foreign "DerivationError: malformed domain identifier"))
  else
    (m.SrcIA.I :: m.SrcIA.A :: m.DstIA.I :: m.DstIA.A :: sv, none)

/-- Modelled from the spec: the strategy registered as `"demo"` (spec §8),
which always succeeds. -/
def demoDeriveLvl2 : Derivation (List Nat) (List Nat) (Option Nat) :=
  fun meta lvl1 => (meta.Protocol.length :: lvl1, none)

/-- Modelled from the spec: a strategy that needs a per-protocol field.
Spec §4.2: a protocol-specific derivation may fail with a `DerivationError`
when a required per-protocol field is missing. -/
def hostDeriveLvl2 : Derivation (List Nat) (List Nat) (Option Nat) :=
  fun meta lvl1 =>
    match meta.Rest with
    | none => ([], some (GoError.foreign "DerivationError: missing host"))
    | some h => (h :: lvl1, none)

/-- Modelled from the spec: a registry `protocol.KnownDerivations` with the
two entries `"demo"` and `"host"`. -/
def demoKnownDerivations : String → Option (Derivation (List Nat) (List Nat) (Option Nat))
  | "demo" => some demoDeriveLvl2
  | "host" => some hostDeriveLvl2
  | _ => none

/-- The instance: keys are byte lists, the zero keys are empty. -/
def demoPackages (secretLen : Nat) : Packages (List Nat) (List Nat) (List Nat) (Option Nat) :=
  { zeroLvl1Key := []
    zeroLvl2Key := []
    DeriveSV := demoDeriveSV secretLen
    DeriveLvl1 := demoDeriveLvl1
    KnownDerivations := demoKnownDerivations }

/-- A request between two well-formed domains. -/
def demoMeta (protocol : String) (rest : Option Nat) : Lvl2Meta (Option Nat) :=
  { SrcIA := { I := 1, A := 10 }, DstIA := { I := 2, A := 20 }, Protocol := protocol, Rest := rest }

/-- A request whose source domain identifier is malformed. -/
def malformedMeta (protocol : String) : Lvl2Meta (Option Nat) :=
  { SrcIA := { I := 0, A := 0 }, DstIA := { I := 2, A := 20 }, Protocol := protocol, Rest := none }

/-- A package instance whose derivations return the epochs they are handed:
the secret value is the epoch of the `SVMeta`, the level-1 key is that secret
value paired with the epoch of the `Lvl1Meta`. It makes the epoch that
`getLvl1` passes on readable in the key. -/
def probePackages : Packages Epoch (Epoch × Epoch) Unit Unit :=
  { zeroLvl1Key := (NewEpoch 0 0, NewEpoch 0 0)
    zeroLvl2Key := ()
    DeriveSV := fun m _ => (m.Epoch, none)
    DeriveLvl1 := fun m sv => ((sv, m.Epoch), none)
    KnownDerivations := fun _ => none }

/-! ## Runs in a world

A second embedding of the same two functions, for statements that compare two
runs. The Go functions run in a process: the derivation functions may read and
change anything in it (clock, random source, caches), the receiver wraps a
live connection and the context may be cancelled. Here the process state is a
value `w : W` passed from call to call, the connector has an operation on it
and the context has readable fields. -/

/-- The interface `sciond.Connector` as far as a method body can use it: a
request sent over the connection to the daemon yields a reply and changes the
world. -/
structure SciondConnector (W : Type) where
  roundTrip : W → List Nat → List Nat × W

/-- The interface `context.Context` as far as a method body can read it:
whether it is cancelled, and its deadline if it has one. -/
structure Context where
  cancelled : Bool
  deadline : Option Nat
  deriving DecidableEq, Repr

/-- A registered derivation whose `DeriveLvl2` runs in a world. -/
abbrev WorldDerivation (W L1 L2 ρ : Type) : Type :=
  Lvl2Meta ρ → L1 → W → (L2 × Option GoError) × W

/-- The packages `drkey` and `drkey/protocol` with derivation functions that
run in a world: each takes the world, and returns its Go result and the world
it leaves. The registry is a fixed map. -/
structure WorldPackages (W SV L1 L2 ρ : Type) where
  zeroLvl1Key : L1
  zeroLvl2Key : L2
  DeriveSV : SVMeta → List Nat → W → (SV × Option GoError) × W
  DeriveLvl1 : Lvl1Meta → SV → W → (L1 × Option GoError) × W
  KnownDerivations : String → Option (WorldDerivation W L1 L2 ρ)

/-- The function `getLvl1(srcIA, dstIA, valTime)`, run in the world `w`. -/
def getLvl1.run {W : Type} (P : WorldPackages W SV L1 L2 ρ) (srcIA dstIA : IA)
    (valTime : Nat) (w : W) : (L1 × Option GoError) × W :=
  let epoch := getLvl1.epoch valTime
  let svMeta : SVMeta := { Epoch := epoch }
  let asSecret := getLvl1.asSecret
  match P.DeriveSV svMeta asSecret w with
  | ((_, some err), w1) =>
    ((P.zeroLvl1Key, some (NewBasicError "Error getting secret value" err)), w1)
  | ((sv, none), w1) =>
    match P.DeriveLvl1 { Epoch := epoch, SrcIA := srcIA, DstIA := dstIA } sv w1 with
    | ((_, some err), w2) =>
      ((P.zeroLvl1Key, some (NewBasicError "Error deriving Lvl1 key" err)), w2)
    | ((lvl1, none), w2) => ((lvl1, none), w2)

/-- The method `Connector.DRKeyGetLvl2Key(ctx, meta, valTime)`, run in the
world `w` on the receiver `c` with the context `ctx`. As in the source, the
body calls nothing of `c` and reads nothing of `ctx`. -/
def DRKeyGetLvl2Key.run {W : Type} (P : WorldPackages W SV L1 L2 ρ) (_c : SciondConnector W)
    (_ctx : Context) (meta : Lvl2Meta ρ) (valTime : Nat) (w : W) :
    (L2 × Option GoError) × W :=
  match getLvl1.run P meta.SrcIA meta.DstIA valTime w with
  | ((_, some err), w1) =>
    ((P.zeroLvl2Key, some (NewBasicError "Error getting lvl1 key" err)), w1)
  | ((lvl1Key, none), w1) =>
    match P.KnownDerivations meta.Protocol with
    | none => ((P.zeroLvl2Key, some (noDerivationFound meta.Protocol)), w1)
    | some derProt => derProt meta lvl1Key w1

/-- The derivation functions of `P` are deterministic and its registry is
that of `Q`: in every world, each function of `P` returns the Go result that
the pure function of `Q` returns on the same arguments, whatever it does to
the world. -/
structure Deterministic {W : Type} (P : WorldPackages W SV L1 L2 ρ)
    (Q : Packages SV L1 L2 ρ) : Prop where
  zeroLvl1Key : P.zeroLvl1Key = Q.zeroLvl1Key
  zeroLvl2Key : P.zeroLvl2Key = Q.zeroLvl2Key
  DeriveSV : ∀ (m : SVMeta) (asSecret : List Nat) (w : W),
    (P.DeriveSV m asSecret w).1 = Q.DeriveSV m asSecret
  DeriveLvl1 : ∀ (m : Lvl1Meta) (sv : SV) (w : W), (P.DeriveLvl1 m sv w).1 = Q.DeriveLvl1 m sv
  absent : ∀ protocol : String,
    P.KnownDerivations protocol = none → Q.KnownDerivations protocol = none
  DeriveLvl2 : ∀ (protocol : String) (d : WorldDerivation W L1 L2 ρ),
    P.KnownDerivations protocol = some d →
      ∃ dq : Derivation L1 L2 ρ, Q.KnownDerivations protocol = some dq ∧
        ∀ (m : Lvl2Meta ρ) (lvl1 : L1) (w : W), (d m lvl1 w).1 = dq m lvl1

/-- The packages `Q` run in a world that counts the derivation calls made so
far: every derivation returns what `Q` returns and adds one to the count. -/
def countingPackages (Q : Packages SV L1 L2 ρ) : WorldPackages Nat SV L1 L2 ρ :=
  { zeroLvl1Key := Q.zeroLvl1Key
    zeroLvl2Key := Q.zeroLvl2Key
    DeriveSV := fun m asSecret w => (Q.DeriveSV m asSecret, w + 1)
    DeriveLvl1 := fun m sv w => (Q.DeriveLvl1 m sv, w + 1)
    KnownDerivations := fun protocol =>
      match Q.KnownDerivations protocol with
      | none => none
      | some dq => some (fun m lvl1 w => (dq m lvl1, w + 1)) }

/-- A connector whose daemon echoes every request and counts it. -/
def echoConnector : SciondConnector Nat :=
  { roundTrip := fun w request => (request, w + 1) }

/-- A connector whose daemon never answers anything. -/
def silentConnector : SciondConnector Nat :=
  { roundTrip := fun w _ => ([], w) }

/-! ## How `getLvl1` and `DRKeyGetLvl2Key` branch -/

theorem getLvl1_sv_err (P : Packages SV L1 L2 ρ) (srcIA dstIA : IA) (valTime : Nat)
    (cause : GoError) (h : (secretValueDerivation P valTime).2 = some cause) :
    getLvl1 P srcIA dstIA valTime =
      { key := P.zeroLvl1Key
        err := some (GoError.basic "Error getting secret value" cause)
        calls := [Call.DeriveSV] } := by
  unfold secretValueDerivation at h
  unfold getLvl1
  rcases hsv : P.DeriveSV { Epoch := getLvl1.epoch valTime } getLvl1.asSecret with ⟨sv, e⟩
  rw [hsv] at h
  simp only at h
  subst h
  simp [NewBasicError, hsv]

theorem getLvl1_lvl1_err (P : Packages SV L1 L2 ρ) (srcIA dstIA : IA) (valTime : Nat)
    (cause : GoError) (hsv : (secretValueDerivation P valTime).2 = none)
    (h : (level1Derivation P srcIA dstIA valTime).2 = some cause) :
    getLvl1 P srcIA dstIA valTime =
      { key := P.zeroLvl1Key
        err := some (GoError.basic "Error deriving Lvl1 key" cause)
        calls := [Call.DeriveSV, Call.DeriveLvl1] } := by
  unfold level1Derivation at h
  unfold secretValueDerivation at h hsv
  unfold getLvl1
  rcases hs : P.DeriveSV { Epoch := getLvl1.epoch valTime } getLvl1.asSecret with ⟨sv, e⟩
  rw [hs] at h hsv
  simp only at h hsv
  subst hsv
  rcases hl : P.DeriveLvl1
      { Epoch := getLvl1.epoch valTime, SrcIA := srcIA, DstIA := dstIA } sv with ⟨k, e1⟩
  rw [hl] at h
  simp only at h
  subst h
  simp [NewBasicError, hs, hl]

theorem getLvl1_ok (P : Packages SV L1 L2 ρ) (srcIA dstIA : IA) (valTime : Nat)
    (hsv : (secretValueDerivation P valTime).2 = none)
    (h : (level1Derivation P srcIA dstIA valTime).2 = none) :
    getLvl1 P srcIA dstIA valTime =
      { key := (level1Derivation P srcIA dstIA valTime).1
        err := none
        calls := [Call.DeriveSV, Call.DeriveLvl1] } := by
  unfold level1Derivation at h ⊢
  unfold secretValueDerivation at h hsv ⊢
  unfold getLvl1
  rcases hs : P.DeriveSV { Epoch := getLvl1.epoch valTime } getLvl1.asSecret with ⟨sv, e⟩
  rw [hs] at h hsv
  simp only at h hsv
  subst hsv
  rcases hl : P.DeriveLvl1
      { Epoch := getLvl1.epoch valTime, SrcIA := srcIA, DstIA := dstIA } sv with ⟨k, e1⟩
  rw [hl] at h
  simp only at h
  subst h
  simp [hs, hl]

/-- The error of `getLvl1` is nil exactly when both derivations succeed. -/
theorem getLvl1_err_none_iff (P : Packages SV L1 L2 ρ) (srcIA dstIA : IA) (valTime : Nat) :
    (getLvl1 P srcIA dstIA valTime).err = none ↔
      (secretValueDerivation P valTime).2 = none ∧
        (level1Derivation P srcIA dstIA valTime).2 = none := by
  cases hsv : (secretValueDerivation P valTime).2 with
  | some c => simp [getLvl1_sv_err P srcIA dstIA valTime c hsv]
  | none =>
    cases hl : (level1Derivation P srcIA dstIA valTime).2 with
    | some c => simp [getLvl1_lvl1_err P srcIA dstIA valTime c hsv hl]
    | none => simp [getLvl1_ok P srcIA dstIA valTime hsv hl]

/-- When `getLvl1` fails, `DRKeyGetLvl2Key` wraps its error and stops. -/
theorem DRKeyGetLvl2Key_lvl1_err (P : Packages SV L1 L2 ρ) (c : Conn) (ctx : Ctx)
    (meta : Lvl2Meta ρ) (valTime : Nat) (e : GoError)
    (h : (getLvl1 P meta.SrcIA meta.DstIA valTime).err = some e) :
    DRKeyGetLvl2Key P c ctx meta valTime =
      { key := P.zeroLvl2Key
        err := some (GoError.basic "Error getting lvl1 key" e)
        calls := (getLvl1 P meta.SrcIA meta.DstIA valTime).calls } := by
  simp [DRKeyGetLvl2Key, h, NewBasicError]

/-- When `getLvl1` succeeds and the protocol is absent from the registry. -/
theorem DRKeyGetLvl2Key_absent (P : Packages SV L1 L2 ρ) (c : Conn) (ctx : Ctx)
    (meta : Lvl2Meta ρ) (valTime : Nat)
    (h : (getLvl1 P meta.SrcIA meta.DstIA valTime).err = none)
    (hk : P.KnownDerivations meta.Protocol = none) :
    DRKeyGetLvl2Key P c ctx meta valTime =
      { key := P.zeroLvl2Key
        err := some (noDerivationFound meta.Protocol)
        calls := (getLvl1 P meta.SrcIA meta.DstIA valTime).calls ++ [Call.Lookup] } := by
  simp [DRKeyGetLvl2Key, h, hk]

/-- When `getLvl1` succeeds and the protocol is registered. -/
theorem DRKeyGetLvl2Key_found (P : Packages SV L1 L2 ρ) (c : Conn) (ctx : Ctx)
    (meta : Lvl2Meta ρ) (valTime : Nat) (derProt : Derivation L1 L2 ρ)
    (h : (getLvl1 P meta.SrcIA meta.DstIA valTime).err = none)
    (hk : P.KnownDerivations meta.Protocol = some derProt) :
    DRKeyGetLvl2Key P c ctx meta valTime =
      { key := (derProt meta (getLvl1 P meta.SrcIA meta.DstIA valTime).key).1
        err := (derProt meta (getLvl1 P meta.SrcIA meta.DstIA valTime).key).2
        calls := (getLvl1 P meta.SrcIA meta.DstIA valTime).calls ++
          [Call.Lookup, Call.DeriveLvl2] } := by
  simp [DRKeyGetLvl2Key, h, hk]

/-! ## Runs against the pure pipeline -/

/-- Under deterministic derivations, a run of `getLvl1` returns the key and
error of the pure `getLvl1`, from any world. -/
theorem getLvl1_run_fst {W : Type} (P : WorldPackages W SV L1 L2 ρ) (Q : Packages SV L1 L2 ρ)
    (hdet : Deterministic P Q) (srcIA dstIA : IA) (valTime : Nat) (w : W) :
    (getLvl1.run P srcIA dstIA valTime w).1 =
      ((getLvl1 Q srcIA dstIA valTime).key, (getLvl1 Q srcIA dstIA valTime).err) := by
  have h1 := hdet.DeriveSV { Epoch := getLvl1.epoch valTime } getLvl1.asSecret w
  rcases hp : P.DeriveSV { Epoch := getLvl1.epoch valTime } getLvl1.asSecret w with
    ⟨⟨sv, e⟩, w1⟩
  rw [hp] at h1
  simp only at h1
  cases e with
  | some err =>
    have hq : (secretValueDerivation Q valTime).2 = some err := by
      unfold secretValueDerivation
      rw [← h1]
    rw [getLvl1_sv_err Q srcIA dstIA valTime err hq]
    simp [getLvl1.run, hp, hdet.zeroLvl1Key, NewBasicError]
  | none =>
    have hq : (secretValueDerivation Q valTime).2 = none := by
      unfold secretValueDerivation
      rw [← h1]
    have hq1 : (secretValueDerivation Q valTime).1 = sv := by
      unfold secretValueDerivation
      rw [← h1]
    have h2 := hdet.DeriveLvl1
      { Epoch := getLvl1.epoch valTime, SrcIA := srcIA, DstIA := dstIA } sv w1
    rcases hl : P.DeriveLvl1
      { Epoch := getLvl1.epoch valTime, SrcIA := srcIA, DstIA := dstIA } sv w1 with
      ⟨⟨k, e1⟩, w2⟩
    rw [hl] at h2
    simp only at h2
    cases e1 with
    | some err =>
      have hql : (level1Derivation Q srcIA dstIA valTime).2 = some err := by
        unfold level1Derivation
        rw [hq1, ← h2]
      rw [getLvl1_lvl1_err Q srcIA dstIA valTime err hq hql]
      simp [getLvl1.run, hp, hl, hdet.zeroLvl1Key, NewBasicError]
    | none =>
      have hql : (level1Derivation Q srcIA dstIA valTime).2 = none := by
        unfold level1Derivation
        rw [hq1, ← h2]
      have hqk : (level1Derivation Q srcIA dstIA valTime).1 = k := by
        unfold level1Derivation
        rw [hq1, ← h2]
      rw [getLvl1_ok Q srcIA dstIA valTime hq hql]
      simp [getLvl1.run, hp, hl, hqk]

/-- Under deterministic derivations, a run of `DRKeyGetLvl2Key` returns the
key and error of the pure `DRKeyGetLvl2Key`, from any world, on any connector
and with any context. -/
theorem DRKeyGetLvl2Key_run_fst {W : Type} (P : WorldPackages W SV L1 L2 ρ)
    (Q : Packages SV L1 L2 ρ) (hdet : Deterministic P Q) (c : SciondConnector W)
    (ctx : Context) (w : W) (meta : Lvl2Meta ρ) (valTime : Nat) :
    (DRKeyGetLvl2Key.run P c ctx meta valTime w).1 =
      ((DRKeyGetLvl2Key Q () () meta valTime).key,
        (DRKeyGetLvl2Key Q () () meta valTime).err) := by
  have hg := getLvl1_run_fst P Q hdet meta.SrcIA meta.DstIA valTime w
  rcases hr : getLvl1.run P meta.SrcIA meta.DstIA valTime w with ⟨⟨k, e⟩, w1⟩
  rw [hr] at hg
  simp only [Prod.mk.injEq] at hg
  obtain ⟨hk, he⟩ := hg
  cases e with
  | some err =>
    rw [DRKeyGetLvl2Key_lvl1_err Q () () meta valTime err he.symm]
    simp [DRKeyGetLvl2Key.run, hr, hdet.zeroLvl2Key, NewBasicError]
  | none =>
    cases hp : P.KnownDerivations meta.Protocol with
    | none =>
      rw [DRKeyGetLvl2Key_absent Q () () meta valTime he.symm (hdet.absent _ hp)]
      simp [DRKeyGetLvl2Key.run, hr, hp, hdet.zeroLvl2Key]
    | some d =>
      obtain ⟨dq, hq, hd⟩ := hdet.DeriveLvl2 _ d hp
      rw [DRKeyGetLvl2Key_found Q () () meta valTime dq he.symm hq]
      simp [DRKeyGetLvl2Key.run, hr, hp, hd, ← hk]

/-- The counting packages over `Q` are deterministic, with the results of `Q`. -/
theorem countingPackages_deterministic (Q : Packages SV L1 L2 ρ) :
    Deterministic (countingPackages Q) Q where
  zeroLvl1Key := rfl
  zeroLvl2Key := rfl
  DeriveSV := fun _ _ _ => rfl
  DeriveLvl1 := fun _ _ _ => rfl
  absent := by
    intro protocol h
    unfold countingPackages at h
    cases hq : Q.KnownDerivations protocol with
    | none => rfl
    | some dq => simp [hq] at h
  DeriveLvl2 := by
    intro protocol d h
    unfold countingPackages at h
    cases hq : Q.KnownDerivations protocol with
    | none => simp [hq] at h
    | some dq =>
      simp only [hq, Option.some.injEq] at h
      exact ⟨dq, rfl, fun m lvl1 w => by rw [← h]⟩

/-! ## The epoch of a request -/

theorem getLvl1_duration_eq : getLvl1.duration = 3600 := by
  decide

theorem getLvl1_epoch_eq (valTime : Nat) :
    getLvl1.epoch valTime = NewEpoch valTime (addUint32 valTime 3600) := by
  have h : uint32 getLvl1.duration = 3600 := by decide
  unfold getLvl1.epoch
  rw [h]

/-- The bounds are in order exactly when the `uint32` addition does not wrap. -/
theorem getLvl1_epoch_ordered_iff (valTime : Nat) (hv : valTime < 2 ^ 32) :
    (getLvl1.epoch valTime).NotBefore < (getLvl1.epoch valTime).NotAfter ↔
      valTime + 3600 < 2 ^ 32 := by
  rw [getLvl1_epoch_eq]
  simp only [NewEpoch, addUint32]
  constructor
  · intro h
    by_contra hc
    have h1 : (valTime + 3600) % 2 ^ 32 = valTime + 3600 - 2 ^ 32 := by
      rw [Nat.mod_eq_sub_mod (by omega)]
      exact Nat.mod_eq_of_lt (by omega)
    omega
  · intro h
    rw [Nat.mod_eq_of_lt h]
    omega

/-! ## The claims -/

/-- C1: for every `Lvl2Meta` `meta` and every 32-bit `valTime` such that the
secret-value derivation and the level-1 derivation succeed and `meta.Protocol`
is present in `protocol.KnownDerivations`, `DRKeyGetLvl2Key(ctx, meta, valTime)`
returns exactly the `(key, error)` pair of
`KnownDerivations[meta.Protocol].DeriveLvl2(meta, lvl1)`, where
`lvl1 = DeriveLvl1({Epoch: e, SrcIA: meta.SrcIA, DstIA: meta.DstIA}, sv)`,
`sv = DeriveSV({Epoch: e}, secret)`, `secret` is the 16-byte value
`00 01 02 03 04 05 06 07 00 01 02 03 04 05 06 07` and
`e = NewEpoch(valTime, valTime + 3600)` is the same epoch in both derivations.
The second argument of `NewEpoch` is a `uint32`, so the sum is the `uint32`
sum. The source and destination are in the caller's order and `meta` reaches
the level-2 derivation unchanged. -/
theorem C1_returns_registered_derivation_of_chain
    (P : Packages SV L1 L2 ρ) (c : Conn) (ctx : Ctx) (meta : Lvl2Meta ρ) (valTime : Nat)
    (derProt : Derivation L1 L2 ρ) (e : Epoch) (secret : List Nat)
    (_hv : valTime < 2 ^ 32)
    (he : e = NewEpoch valTime (addUint32 valTime 3600))
    (hsecret : secret = [0, 1, 2, 3, 4, 5, 6, 7, 0, 1, 2, 3, 4, 5, 6, 7])
    (hsv : (P.DeriveSV { Epoch := e } secret).2 = none)
    (hlvl1 : (P.DeriveLvl1 { Epoch := e, SrcIA := meta.SrcIA, DstIA := meta.DstIA }
      (P.DeriveSV { Epoch := e } secret).1).2 = none)
    (hfound : P.KnownDerivations meta.Protocol = some derProt) :
    ((DRKeyGetLvl2Key P c ctx meta valTime).key, (DRKeyGetLvl2Key P c ctx meta valTime).err) =
      derProt meta
        (P.DeriveLvl1 { Epoch := e, SrcIA := meta.SrcIA, DstIA := meta.DstIA }
          (P.DeriveSV { Epoch := e } secret).1).1 := by
  have hep : getLvl1.epoch valTime = e := by rw [he, getLvl1_epoch_eq]
  have hsec : getLvl1.asSecret = secret := by rw [hsecret]; rfl
  have hsv1 : (secretValueDerivation P valTime).2 = none := by
    unfold secretValueDerivation
    rw [hep, hsec]
    exact hsv
  have hl1 : (level1Derivation P meta.SrcIA meta.DstIA valTime).2 = none := by
    unfold level1Derivation secretValueDerivation
    rw [hep, hsec]
    exact hlvl1
  have hg := getLvl1_ok P meta.SrcIA meta.DstIA valTime hsv1 hl1
  have hr := DRKeyGetLvl2Key_found P c ctx meta valTime derProt (by rw [hg]) hfound
  rw [hr, hg]
  unfold level1Derivation secretValueDerivation
  rw [hep, hsec]

/-- Witness of C1: the registered protocol `"demo"` at `valTime = 1000`. -/
theorem C1_returns_registered_derivation_of_chain_witness :
    ((DRKeyGetLvl2Key (demoPackages 16) () () (demoMeta "demo" none) 1000).key,
      (DRKeyGetLvl2Key (demoPackages 16) () () (demoMeta "demo" none) 1000).err) =
      ([4, 1, 10, 2, 20, 1000, 4600, 0, 1, 2, 3, 4, 5, 6, 7, 0, 1, 2, 3, 4, 5, 6, 7], none) :=
  (C1_returns_registered_derivation_of_chain (demoPackages 16) () () (demoMeta "demo" none) 1000
    demoDeriveLvl2 (NewEpoch 1000 4600) [0, 1, 2, 3, 4, 5, 6, 7, 0, 1, 2, 3, 4, 5, 6, 7]
    (by decide) (by decide) rfl (by decide) (by decide) rfl).trans (by decide)

/-- C2: for every valid timestamp `valTime` (a 32-bit unsigned value with
`valTime + 3600 < 2^32`), the epoch that `getLvl1` builds has `notBefore`
equal to `valTime` and `notAfter - notBefore` equal to the fixed epoch
duration of 3600 seconds (one hour): it is `e = [valTime, valTime + 3600)`.
That `getLvl1` builds `e` is stated on `getLvl1` itself, for arbitrary
derivation functions: `e` is the epoch of the `SVMeta` handed to `DeriveSV`
and of the `Lvl1Meta` handed to `DeriveLvl1`, on each of the three paths of
`getLvl1`. -/
theorem C2_epoch_starts_at_valTime_and_lasts_one_hour
    (P : Packages SV L1 L2 ρ) (srcIA dstIA : IA) (valTime : Nat) (e : Epoch)
    (hvalid : valTime + 3600 < 2 ^ 32)
    (he : e = NewEpoch valTime (valTime + 3600)) :
    e.NotBefore = valTime ∧
      e.NotAfter - e.NotBefore = 3600 ∧
      getLvl1.duration = 3600 ∧
      getLvl1.epoch valTime = e ∧
      (∀ cause : GoError,
        (P.DeriveSV { Epoch := e } [0, 1, 2, 3, 4, 5, 6, 7, 0, 1, 2, 3, 4, 5, 6, 7]).2
            = some cause →
          getLvl1 P srcIA dstIA valTime =
            { key := P.zeroLvl1Key
              err := some (GoError.basic "Error getting secret value" cause)
              calls := [Call.DeriveSV] }) ∧
      ((P.DeriveSV { Epoch := e } [0, 1, 2, 3, 4, 5, 6, 7, 0, 1, 2, 3, 4, 5, 6, 7]).2 = none →
        ∀ cause : GoError,
          (P.DeriveLvl1 { Epoch := e, SrcIA := srcIA, DstIA := dstIA }
            (P.DeriveSV { Epoch := e } [0, 1, 2, 3, 4, 5, 6, 7, 0, 1, 2, 3, 4, 5, 6, 7]).1).2
              = some cause →
            getLvl1 P srcIA dstIA valTime =
              { key := P.zeroLvl1Key
                err := some (GoError.basic "Error deriving Lvl1 key" cause)
                calls := [Call.DeriveSV, Call.DeriveLvl1] }) ∧
      ((P.DeriveSV { Epoch := e } [0, 1, 2, 3, 4, 5, 6, 7, 0, 1, 2, 3, 4, 5, 6, 7]).2 = none →
        (P.DeriveLvl1 { Epoch := e, SrcIA := srcIA, DstIA := dstIA }
          (P.DeriveSV { Epoch := e } [0, 1, 2, 3, 4, 5, 6, 7, 0, 1, 2, 3, 4, 5, 6, 7]).1).2
            = none →
          getLvl1 P srcIA dstIA valTime =
            { key := (P.DeriveLvl1 { Epoch := e, SrcIA := srcIA, DstIA := dstIA }
                (P.DeriveSV { Epoch := e }
                  [0, 1, 2, 3, 4, 5, 6, 7, 0, 1, 2, 3, 4, 5, 6, 7]).1).1
              err := none
              calls := [Call.DeriveSV, Call.DeriveLvl1] }) := by
  have h : getLvl1.epoch valTime = NewEpoch valTime (valTime + 3600) := by
    rw [getLvl1_epoch_eq]
    unfold addUint32
    rw [Nat.mod_eq_of_lt hvalid]
  have hep : e = getLvl1.epoch valTime := he.trans h.symm
  refine ⟨by rw [he]; rfl, by rw [he]; simp [NewEpoch], getLvl1_duration_eq, hep.symm,
    ?_, ?_, ?_⟩
  · intro cause hc
    rw [hep] at hc
    exact getLvl1_sv_err P srcIA dstIA valTime cause hc
  · intro hsv cause hc
    rw [hep] at hsv hc
    exact getLvl1_lvl1_err P srcIA dstIA valTime cause hsv hc
  · intro hsv hl
    rw [hep] at hsv hl ⊢
    exact getLvl1_ok P srcIA dstIA valTime hsv hl

/-- Witness of C2: at `valTime = 1000`, with derivations that return the
epochs they are handed, the key of `getLvl1` shows the epoch `[1000, 4600)`
in both places. -/
theorem C2_epoch_starts_at_valTime_and_lasts_one_hour_witness :
    1000 + 3600 < 2 ^ 32 ∧
      (getLvl1 probePackages { I := 1, A := 10 } { I := 2, A := 20 } 1000).key =
        (NewEpoch 1000 4600, NewEpoch 1000 4600) ∧
      (NewEpoch 1000 4600).NotBefore = 1000 ∧
      (NewEpoch 1000 4600).NotAfter - (NewEpoch 1000 4600).NotBefore = 3600 := by
  have h := C2_epoch_starts_at_valTime_and_lasts_one_hour probePackages
    { I := 1, A := 10 } { I := 2, A := 20 } 1000 (NewEpoch 1000 4600) (by decide) rfl
  refine ⟨by decide, ?_, h.1, h.2.1⟩
  rw [h.2.2.2.2.2.2 rfl rfl]
  rfl

/-- C3 fails on the code: at `valTime = 4294967295`, a `uint32` value, the
`uint32` sum `valTime + uint32(3600)` wraps to `3599`, so `getLvl1` hands
`NewEpoch` the bounds `(4294967295, 3599)`, for which `notBefore < notAfter`
is false; `getLvl1` goes on to derive the secret value for that epoch. -/
theorem C3_epoch_bounds_wrap_at_max_valTime :
    (4294967295 : Nat) < 2 ^ 32 ∧
      getLvl1.epoch 4294967295 = NewEpoch 4294967295 3599 ∧
      ¬ (getLvl1.epoch 4294967295).NotBefore < (getLvl1.epoch 4294967295).NotAfter ∧
      (getLvl1 (demoPackages 16) { I := 1, A := 10 } { I := 2, A := 20 } 4294967295).err
        = none := by
  decide

/-- C4 fails as stated: the protocol `"unregistered"` is absent from the
registry, yet the request with a malformed source domain gets the wrapped
level-1 error, not the unknown-protocol error. -/
theorem C4_counterexample_lvl1_failure_comes_first :
    (demoPackages 16).KnownDerivations (malformedMeta "unregistered").Protocol = none ∧
      (DRKeyGetLvl2Key (demoPackages 16) () () (malformedMeta "unregistered") 1000).err =
        some (GoError.basic "Error getting lvl1 key"
          (GoError.basic "Error deriving Lvl1 key"
            (GoError.foreign "DerivationError: malformed domain identifier"))) ∧
      (DRKeyGetLvl2Key (demoPackages 16) () () (malformedMeta "unregistered") 1000).err ≠
        some (GoError.errorf "No derivation found for protocol \"unregistered\"") := by
  refine ⟨rfl, ?_, ?_⟩ <;> decide

/-- C4, amended: for every `meta` whose `Protocol` is absent from
`protocol.KnownDerivations` and every `valTime` for which the secret-value
derivation and the level-1 derivation succeed, `DRKeyGetLvl2Key` returns the
zero `Lvl2Key` together with the error
`No derivation found for protocol "<meta.Protocol>"`, and no level-2
derivation function is invoked: the calls are `DeriveSV`, `DeriveLvl1` and the
registry lookup. -/
theorem C4_unknown_protocol_after_lvl1_success
    (P : Packages SV L1 L2 ρ) (c : Conn) (ctx : Ctx) (meta : Lvl2Meta ρ) (valTime : Nat)
    (hsv : (secretValueDerivation P valTime).2 = none)
    (hlvl1 : (level1Derivation P meta.SrcIA meta.DstIA valTime).2 = none)
    (habsent : P.KnownDerivations meta.Protocol = none) :
    (DRKeyGetLvl2Key P c ctx meta valTime).key = P.zeroLvl2Key ∧
      (DRKeyGetLvl2Key P c ctx meta valTime).err =
        some (GoError.errorf ("No derivation found for protocol \"" ++ meta.Protocol ++ "\"")) ∧
      Call.DeriveLvl2 ∉ (DRKeyGetLvl2Key P c ctx meta valTime).calls ∧
      (DRKeyGetLvl2Key P c ctx meta valTime).calls =
        [Call.DeriveSV, Call.DeriveLvl1, Call.Lookup] := by
  have hg := getLvl1_ok P meta.SrcIA meta.DstIA valTime hsv hlvl1
  have hr := DRKeyGetLvl2Key_absent P c ctx meta valTime (by rw [hg]) habsent
  rw [hr, hg]
  simp [noDerivationFound]

/-- Witness of the amended C4: the protocol `"unregistered"` between two
well-formed domains. -/
theorem C4_unknown_protocol_after_lvl1_success_witness :
    (DRKeyGetLvl2Key (demoPackages 16) () () (demoMeta "unregistered" none) 1000).key = [] ∧
      (DRKeyGetLvl2Key (demoPackages 16) () () (demoMeta "unregistered" none) 1000).err =
        some (GoError.errorf ("No derivation found for protocol \"" ++ "unregistered" ++ "\"")) ∧
      Call.DeriveLvl2 ∉
        (DRKeyGetLvl2Key (demoPackages 16) () () (demoMeta "unregistered" none) 1000).calls ∧
      (DRKeyGetLvl2Key (demoPackages 16) () () (demoMeta "unregistered" none) 1000).calls =
        [Call.DeriveSV, Call.DeriveLvl1, Call.Lookup] :=
  C4_unknown_protocol_after_lvl1_success (demoPackages 16) () () (demoMeta "unregistered" none)
    1000 (by decide) (by decide) rfl

/-- C5 fails on the code: the strategy registered as `"host"` returns the
error `cause` for a request without host, after a successful level-1
derivation; `DRKeyGetLvl2Key` returns `cause` itself, which is not a
`common.BasicError` wrapping `cause`, where the claim has the error wrapped
with the level-2 stage. -/
theorem C5_lvl2_error_is_returned_bare_for_host_request :
    (demoPackages 16).KnownDerivations (demoMeta "host" none).Protocol = some hostDeriveLvl2 ∧
      (getLvl1 (demoPackages 16) (demoMeta "host" none).SrcIA (demoMeta "host" none).DstIA
        1000).err = none ∧
      (hostDeriveLvl2 (demoMeta "host" none)
        (getLvl1 (demoPackages 16) (demoMeta "host" none).SrcIA (demoMeta "host" none).DstIA
          1000).key).2 = some (GoError.foreign "DerivationError: missing host") ∧
      (DRKeyGetLvl2Key (demoPackages 16) () () (demoMeta "host" none) 1000).err =
        some (GoError.foreign "DerivationError: missing host") ∧
      GoError.wraps (GoError.foreign "DerivationError: missing host")
        (GoError.foreign "DerivationError: missing host") = false ∧
      (DRKeyGetLvl2Key (demoPackages 16) () () (malformedMeta "host") 1000).err =
        some (GoError.basic "Error getting lvl1 key"
          (GoError.basic "Error deriving Lvl1 key"
            (GoError.foreign "DerivationError: malformed domain identifier"))) := by
  refine ⟨rfl, ?_, ?_, ?_, ?_, ?_⟩ <;> decide

/-- C6: for every `meta` and `valTime`, if the secret-value derivation
`DeriveSV` fails with error `cause`, then `DRKeyGetLvl2Key` returns the zero
`Lvl2Key` and the non-nil error
`Error getting lvl1 key` -> `Error getting secret value` -> `cause`, a
`BasicError` chain with the original cause at the bottom; and neither the
level-1 derivation, the registry lookup nor any level-2 derivation is
performed: `DeriveSV` is the only call. -/
theorem C6_secret_value_failure_is_wrapped_and_stops
    (P : Packages SV L1 L2 ρ) (c : Conn) (ctx : Ctx) (meta : Lvl2Meta ρ) (valTime : Nat)
    (cause : GoError)
    (hfail : (secretValueDerivation P valTime).2 = some cause) :
    (DRKeyGetLvl2Key P c ctx meta valTime).key = P.zeroLvl2Key ∧
      (DRKeyGetLvl2Key P c ctx meta valTime).err =
        some (GoError.basic "Error getting lvl1 key"
          (GoError.basic "Error getting secret value" cause)) ∧
      (DRKeyGetLvl2Key P c ctx meta valTime).err ≠ none ∧
      Call.DeriveLvl1 ∉ (DRKeyGetLvl2Key P c ctx meta valTime).calls ∧
      Call.Lookup ∉ (DRKeyGetLvl2Key P c ctx meta valTime).calls ∧
      Call.DeriveLvl2 ∉ (DRKeyGetLvl2Key P c ctx meta valTime).calls ∧
      (DRKeyGetLvl2Key P c ctx meta valTime).calls = [Call.DeriveSV] := by
  have hg := getLvl1_sv_err P meta.SrcIA meta.DstIA valTime cause hfail
  have hr := DRKeyGetLvl2Key_lvl1_err P c ctx meta valTime _ (by rw [hg])
  rw [hr, hg]
  simp

/-- Witness of C6: an instance of `DeriveSV` that wants a 32-byte secret. -/
theorem C6_secret_value_failure_is_wrapped_and_stops_witness :
    (DRKeyGetLvl2Key (demoPackages 32) () () (demoMeta "demo" none) 1000).key = [] ∧
      (DRKeyGetLvl2Key (demoPackages 32) () () (demoMeta "demo" none) 1000).err =
        some (GoError.basic "Error getting lvl1 key"
          (GoError.basic "Error getting secret value"
            (GoError.foreign "DerivationError: master secret length"))) ∧
      (DRKeyGetLvl2Key (demoPackages 32) () () (demoMeta "demo" none) 1000).err ≠ none ∧
      Call.DeriveLvl1 ∉ (DRKeyGetLvl2Key (demoPackages 32) () () (demoMeta "demo" none) 1000).calls ∧
      Call.Lookup ∉ (DRKeyGetLvl2Key (demoPackages 32) () () (demoMeta "demo" none) 1000).calls ∧
      Call.DeriveLvl2 ∉ (DRKeyGetLvl2Key (demoPackages 32) () () (demoMeta "demo" none) 1000).calls ∧
      (DRKeyGetLvl2Key (demoPackages 32) () () (demoMeta "demo" none) 1000).calls
        = [Call.DeriveSV] :=
  C6_secret_value_failure_is_wrapped_and_stops (demoPackages 32) () () (demoMeta "demo" none)
    1000 (GoError.foreign "DerivationError: master secret length") (by decide)

/-- C7: for every `meta` and `valTime`, if the secret-value derivation
succeeds but the level-1 derivation `DeriveLvl1` fails with error `cause`,
then `DRKeyGetLvl2Key` returns the zero `Lvl2Key` and the non-nil error
`Error getting lvl1 key` -> `Error deriving Lvl1 key` -> `cause`, a
`BasicError` chain; that error differs from the error of every call in which
the secret-value derivation fails. -/
theorem C7_lvl1_failure_is_wrapped_with_its_own_stage
    (P : Packages SV L1 L2 ρ) (c : Conn) (ctx : Ctx) (meta : Lvl2Meta ρ) (valTime : Nat)
    (cause : GoError)
    (hsv : (secretValueDerivation P valTime).2 = none)
    (hfail : (level1Derivation P meta.SrcIA meta.DstIA valTime).2 = some cause) :
    (DRKeyGetLvl2Key P c ctx meta valTime).key = P.zeroLvl2Key ∧
      (DRKeyGetLvl2Key P c ctx meta valTime).err =
        some (GoError.basic "Error getting lvl1 key"
          (GoError.basic "Error deriving Lvl1 key" cause)) ∧
      (DRKeyGetLvl2Key P c ctx meta valTime).err ≠ none ∧
      ∀ (P2 : Packages SV L1 L2 ρ) (c2 : Conn) (ctx2 : Ctx) (meta2 : Lvl2Meta ρ)
        (valTime2 : Nat) (cause2 : GoError),
        (secretValueDerivation P2 valTime2).2 = some cause2 →
          (DRKeyGetLvl2Key P2 c2 ctx2 meta2 valTime2).err ≠
            (DRKeyGetLvl2Key P c ctx meta valTime).err := by
  have hg := getLvl1_lvl1_err P meta.SrcIA meta.DstIA valTime cause hsv hfail
  have hr := DRKeyGetLvl2Key_lvl1_err P c ctx meta valTime _ (by rw [hg])
  refine ⟨by rw [hr], by rw [hr], by rw [hr]; simp, ?_⟩
  intro P2 c2 ctx2 meta2 valTime2 cause2 h2
  have hg2 := getLvl1_sv_err P2 meta2.SrcIA meta2.DstIA valTime2 cause2 h2
  have hr2 := DRKeyGetLvl2Key_lvl1_err P2 c2 ctx2 meta2 valTime2 _ (by rw [hg2])
  rw [hr, hr2]
  simp

/-- Witness of C7: a request whose source domain identifier is malformed. -/
theorem C7_lvl1_failure_is_wrapped_with_its_own_stage_witness :
    (DRKeyGetLvl2Key (demoPackages 16) () () (malformedMeta "demo") 1000).key = [] ∧
      (DRKeyGetLvl2Key (demoPackages 16) () () (malformedMeta "demo") 1000).err =
        some (GoError.basic "Error getting lvl1 key"
          (GoError.basic "Error deriving Lvl1 key"
            (GoError.foreign "DerivationError: malformed domain identifier"))) :=
  have h := C7_lvl1_failure_is_wrapped_with_its_own_stage (demoPackages 16) () ()
    (malformedMeta "demo") 1000 (GoError.foreign "DerivationError: malformed domain identifier")
    (by decide) (by decide)
  ⟨h.1, h.2.1⟩

/-- C8: determinism as a two-run statement. For a fixed registry and
deterministic derivation functions (`Deterministic P Q`), any two runs of
`DRKeyGetLvl2Key` with the same `meta` and the same `valTime` return identical
`(key, error)` results, whatever the world each run starts in, whatever the
wrapped `sciond.Connector` and whatever the `context.Context` of each run are.
The result is a function of `meta` and `valTime` only, namely the result of
the pure pipeline over `Q`, and the connection is never consulted: the world a
run leaves is the same for any two connectors and contexts. -/
theorem C8_two_runs_return_identical_results {W : Type}
    (P : WorldPackages W SV L1 L2 ρ) (Q : Packages SV L1 L2 ρ) (hdet : Deterministic P Q)
    (c1 c2 : SciondConnector W) (ctx1 ctx2 : Context) (w1 w2 : W)
    (meta : Lvl2Meta ρ) (valTime : Nat) :
    (DRKeyGetLvl2Key.run P c1 ctx1 meta valTime w1).1 =
        (DRKeyGetLvl2Key.run P c2 ctx2 meta valTime w2).1 ∧
      (DRKeyGetLvl2Key.run P c1 ctx1 meta valTime w1).1 =
        ((DRKeyGetLvl2Key Q () () meta valTime).key,
          (DRKeyGetLvl2Key Q () () meta valTime).err) ∧
      DRKeyGetLvl2Key.run P c1 ctx1 meta valTime w1 =
        DRKeyGetLvl2Key.run P c2 ctx2 meta valTime w1 := by
  have key : ∀ (c : SciondConnector W) (ctx : Context) (w : W),
      (DRKeyGetLvl2Key.run P c ctx meta valTime w).1 =
        ((DRKeyGetLvl2Key Q () () meta valTime).key,
          (DRKeyGetLvl2Key Q () () meta valTime).err) :=
    fun c ctx w => DRKeyGetLvl2Key_run_fst P Q hdet c ctx w meta valTime
  exact ⟨(key c1 ctx1 w1).trans (key c2 ctx2 w2).symm, key c1 ctx1 w1, rfl⟩

/-- Witness of C8: the protocol `"demo"` run twice over packages that count
their calls, once in world `0` on an echoing connector with a live context,
once in world `7` on a silent connector with a cancelled context. -/
theorem C8_two_runs_return_identical_results_witness :
    (DRKeyGetLvl2Key.run (countingPackages (demoPackages 16)) echoConnector
        { cancelled := false, deadline := none } (demoMeta "demo" none) 1000 0).1 =
      (DRKeyGetLvl2Key.run (countingPackages (demoPackages 16)) silentConnector
        { cancelled := true, deadline := some 5 } (demoMeta "demo" none) 1000 7).1 :=
  (C8_two_runs_return_identical_results (countingPackages (demoPackages 16)) (demoPackages 16)
    (countingPackages_deterministic (demoPackages 16)) echoConnector silentConnector
    { cancelled := false, deadline := none } { cancelled := true, deadline := some 5 } 0 7
    (demoMeta "demo" none) 1000).1

/-- C9: no error is swallowed. For every `meta` and `valTime`,
`DRKeyGetLvl2Key` returns a nil error if and only if the secret-value
derivation succeeds, the level-1 derivation succeeds, `meta.Protocol` is
present in `protocol.KnownDerivations`, and the registered level-2 derivation
returns a nil error. -/
theorem C9_nil_error_iff_every_stage_succeeds
    (P : Packages SV L1 L2 ρ) (c : Conn) (ctx : Ctx) (meta : Lvl2Meta ρ) (valTime : Nat) :
    (DRKeyGetLvl2Key P c ctx meta valTime).err = none ↔
      (secretValueDerivation P valTime).2 = none ∧
        (level1Derivation P meta.SrcIA meta.DstIA valTime).2 = none ∧
        ∃ derProt : Derivation L1 L2 ρ,
          P.KnownDerivations meta.Protocol = some derProt ∧
            (derProt meta (level1Derivation P meta.SrcIA meta.DstIA valTime).1).2 = none := by
  cases hsv : (secretValueDerivation P valTime).2 with
  | some e1 =>
    have hg := getLvl1_sv_err P meta.SrcIA meta.DstIA valTime e1 hsv
    have hr := DRKeyGetLvl2Key_lvl1_err P c ctx meta valTime _ (by rw [hg])
    rw [hr]
    simp
  | none =>
    cases hl : (level1Derivation P meta.SrcIA meta.DstIA valTime).2 with
    | some e2 =>
      have hg := getLvl1_lvl1_err P meta.SrcIA meta.DstIA valTime e2 hsv hl
      have hr := DRKeyGetLvl2Key_lvl1_err P c ctx meta valTime _ (by rw [hg])
      rw [hr]
      simp
    | none =>
      have hg := getLvl1_ok P meta.SrcIA meta.DstIA valTime hsv hl
      cases hk : P.KnownDerivations meta.Protocol with
      | none =>
        have hr := DRKeyGetLvl2Key_absent P c ctx meta valTime (by rw [hg]) hk
        rw [hr]
        simp
      | some derProt =>
        have hr := DRKeyGetLvl2Key_found P c ctx meta valTime derProt (by rw [hg]) hk
        rw [hr, hg]
        simp

/-- C10: level-1 failure takes precedence over an unknown protocol. For every
`meta` and `valTime` for which the secret-value or the level-1 derivation
fails, `DRKeyGetLvl2Key` returns the zero key and an error wrapped as
`Error getting lvl1 key`, whatever the registry holds and whatever
`meta.Protocol` is: replacing the registry and the protocol name leaves the
result unchanged. The unknown-protocol error is not returned in that case, for
any protocol name; it needs a successfully derived level-1 key. -/
theorem C10_lvl1_failure_precedes_unknown_protocol
    (P : Packages SV L1 L2 ρ) (c : Conn) (ctx : Ctx) (meta : Lvl2Meta ρ) (valTime : Nat)
    (hfail : (secretValueDerivation P valTime).2 ≠ none ∨
      (level1Derivation P meta.SrcIA meta.DstIA valTime).2 ≠ none) :
    (DRKeyGetLvl2Key P c ctx meta valTime).key = P.zeroLvl2Key ∧
      (∃ cause : GoError, (DRKeyGetLvl2Key P c ctx meta valTime).err =
        some (GoError.basic "Error getting lvl1 key" cause)) ∧
      (∀ (registry : String → Option (Derivation L1 L2 ρ)) (protocol : String),
        DRKeyGetLvl2Key { P with KnownDerivations := registry } c ctx
            { meta with Protocol := protocol } valTime =
          DRKeyGetLvl2Key P c ctx meta valTime) ∧
      (∀ protocol : String,
        (DRKeyGetLvl2Key P c ctx meta valTime).err ≠ some (noDerivationFound protocol)) ∧
      Call.Lookup ∉ (DRKeyGetLvl2Key P c ctx meta valTime).calls := by
  have hne : (getLvl1 P meta.SrcIA meta.DstIA valTime).err ≠ none := by
    intro h
    have h2 := (getLvl1_err_none_iff P meta.SrcIA meta.DstIA valTime).1 h
    rcases hfail with h1 | h1
    · exact h1 h2.1
    · exact h1 h2.2
  obtain ⟨e, he⟩ : ∃ e, (getLvl1 P meta.SrcIA meta.DstIA valTime).err = some e := by
    cases h : (getLvl1 P meta.SrcIA meta.DstIA valTime).err with
    | none => exact absurd h hne
    | some e => exact ⟨e, rfl⟩
  have hr := DRKeyGetLvl2Key_lvl1_err P c ctx meta valTime e he
  have hcalls : Call.Lookup ∉ (getLvl1 P meta.SrcIA meta.DstIA valTime).calls := by
    cases hsv : (secretValueDerivation P valTime).2 with
    | some e1 =>
      rw [getLvl1_sv_err P meta.SrcIA meta.DstIA valTime e1 hsv]
      simp
    | none =>
      cases hl : (level1Derivation P meta.SrcIA meta.DstIA valTime).2 with
      | some e2 =>
        rw [getLvl1_lvl1_err P meta.SrcIA meta.DstIA valTime e2 hsv hl]
        simp
      | none =>
        rw [getLvl1_ok P meta.SrcIA meta.DstIA valTime hsv hl] at he
        cases he
  refine ⟨by rw [hr], ⟨e, by rw [hr]⟩, ?_, ?_, by rw [hr]; exact hcalls⟩
  · intro registry protocol
    have he2 : (getLvl1 { P with KnownDerivations := registry }
        ({ meta with Protocol := protocol } : Lvl2Meta ρ).SrcIA
        ({ meta with Protocol := protocol } : Lvl2Meta ρ).DstIA valTime).err = some e := he
    rw [hr, DRKeyGetLvl2Key_lvl1_err { P with KnownDerivations := registry } c ctx
      { meta with Protocol := protocol } valTime e he2]
    rfl
  · intro protocol h
    rw [hr] at h
    simp [noDerivationFound] at h

/-- Witness of C10: with a malformed source domain, the unregistered protocol
`"unregistered"` and the registered protocol `"host"` get the same result. -/
theorem C10_lvl1_failure_precedes_unknown_protocol_witness :
    DRKeyGetLvl2Key (demoPackages 16) () () (malformedMeta "unregistered") 1000 =
      DRKeyGetLvl2Key (demoPackages 16) () () (malformedMeta "host") 1000 :=
  (C10_lvl1_failure_precedes_unknown_protocol (demoPackages 16) () () (malformedMeta "host")
    1000 (Or.inr (by decide))).2.2.1 demoKnownDerivations "unregistered"

end DRKeyMockup
